import Mathlib

/-
Verification development for the supreme_bot repository
(src/supreme_bot/automate_buy.py, main.py, update.py).

The Python code drives one browser session through four phases:
drop monitoring (wait_for_drop), per-item cart acquisition
(add_item_to_cart), a human CAPTCHA gate (detect_captcha,
wait_for_captcha, captcha_check) and a checkout pipeline
(click_checkout, fill_info, send_order) orchestrated by buy.

We shallow-embed each function.  The rendered page is a black box
queried through boolean probes and fallible navigation calls, so an
environment record supplies, for each (integer) second of the run,
the answers the page would give: whether is_queue_state(page) holds,
whether the item image is visible, how page.reload terminates
(normally, with a Playwright TimeoutError, or with another
exception), which network responses arrive, and so on.  Randomness
(random.uniform(a, b)) is embedded as an environment-chosen value
clamped into the same interval [a, b].  Loops that the source bounds
by wall-clock deadlines are embedded with a fuel argument large
enough to cover the deadline (proved below); the unbounded
while-True loop of wait_for_drop keeps an explicit fuel parameter
since the source loop is deliberately unbounded.  Every embedded
function also emits a trace of the observable actions it performs
(reloads, sleeps, state checks, checkout operations), over which the
temporal claims are stated.
-/

namespace SupremeBot

/-- Outcome of a fallible Playwright call (page.reload,
wait_for_load_state): normal return, playwright TimeoutError
(caught as PWTimeout in the source), or any other exception. -/
inductive PWOutcome
| ok
| timeout
| err
deriving DecidableEq, Repr

/-- Observable action of the monitoring code (wait_for_drop and the
queue sub-loops).  queueCheck records the time of the
is_queue_state(page) probe, the elapsed seconds since queue_start as
the source computes them (0 for the probe outside a gentle-wait
loop), and the probe result.  sleep records a time.sleep of d
seconds issued at time t. -/
inductive Ev
| reload (t : Nat) (o : PWOutcome)
| captcha (t : Nat)
| queueCheck (t elapsed : Nat) (r : Bool)
| visCheck (t : Nat) (r : Bool)
| sleep (t d : Nat)
deriving DecidableEq, Repr

/-- Gentle-wait sub-loop shared verbatim by wait_for_drop (lines
100-106) and add_item_to_cart (lines 142-147): while
is_queue_state(page): if time - queue_start > 300: break;
time.sleep(random.uniform(5, 10)).  queueAt gives the
is_queue_state probe at each time, jitter the random draw (clamped
into [5, 10] as 5 + jitter t % 6).  qs is queue_start, t the current
time, the last argument the fuel; the result is the exit time (none
if fuel ran out, which the adequacy lemma below rules out for fuel
62) paired with the emitted trace. -/
def gentleWait (queueAt : Nat → Bool) (jitter : Nat → Nat) (qs : Nat) :
    Nat → Nat → Option Nat × List Ev
  | _, 0 => (none, [])
  | t, fuel+1 =>
    if queueAt t then
      if t - qs > 300 then (some t, [.queueCheck t (t - qs) true])
      else
        let d := 5 + jitter t % 6
        let r := gentleWait queueAt jitter qs (t + d) fuel
        (r.1, .queueCheck t (t - qs) true :: .sleep t d :: r.2)
    else (some t, [.queueCheck t (t - qs) false])

/-- Page behaviour visible to wait_for_drop: outcome of page.reload
at time t, the is_queue_state and is_item_visible probes at time t
(both helpers catch their own exceptions and return a Bool), and the
random draws for the two jitter ranges. -/
structure MonitorEnv where
  reloadOutcome : Nat → PWOutcome
  queueAt : Nat → Bool
  visibleAt : Nat → Bool
  queueJitter : Nat → Nat
  dropJitter : Nat → Nat

/-- wait_for_drop (automate_buy.py lines 85-121).  Each iteration of
the while-True loop reloads, runs captcha_check, and classifies the
page: QUEUED enters the gentle-wait sub-loop and then loops back to
the reload; LIVE (item visible) returns; PRE_DROP sleeps
random.uniform(5, 15) and loops.  A PWTimeout raised by the reload
sleeps 5 and retries, any other exception sleeps 10 and retries.
First argument after the environment is the fuel for the unbounded
outer loop (none = still looping when fuel ran out), second is the
current time; the gentle-wait sub-loop gets fuel 62, which the
adequacy lemma proves is never exhausted. -/
def waitForDrop (env : MonitorEnv) : Nat → Nat → Option Nat × List Ev
  | 0, _ => (none, [])
  | fuel+1, t =>
    match env.reloadOutcome t with
    | .timeout =>
      let r := waitForDrop env fuel (t + 5)
      (r.1, .reload t .timeout :: .sleep t 5 :: r.2)
    | .err =>
      let r := waitForDrop env fuel (t + 10)
      (r.1, .reload t .err :: .sleep t 10 :: r.2)
    | .ok =>
      if env.queueAt t then
        let g := gentleWait env.queueAt env.queueJitter t t 62
        match g.1 with
        | none => (none, .reload t .ok :: .captcha t :: .queueCheck t 0 true :: g.2)
        | some t1 =>
          let r := waitForDrop env fuel t1
          (r.1, .reload t .ok :: .captcha t :: .queueCheck t 0 true :: (g.2 ++ r.2))
      else if env.visibleAt t then
        (some t, [.reload t .ok, .captcha t, .queueCheck t 0 false, .visCheck t true])
      else
        let d := 5 + env.dropJitter t % 11
        let r := waitForDrop env fuel (t + d)
        (r.1, .reload t .ok :: .captcha t :: .queueCheck t 0 false ::
              .visCheck t false :: .sleep t d :: r.2)

/-- Scanner state for the queued-reload property: the data of the
most recent queueCheck event (result and the elapsed value the
source computed there), none before the first check. -/
def scanStep : Option (Bool × Nat) → Ev → Option (Bool × Nat)
  | _, .queueCheck _ e r => some (r, e)
  | s, _ => s

/-- Fold scanStep along a trace. -/
def scanState (s : Option (Bool × Nat)) (evs : List Ev) : Option (Bool × Nat) :=
  evs.foldl scanStep s

/-- A reload is permitted when no queue classification has happened
yet, when the last classification was not QUEUED, or when the last
classification was QUEUED but the 300 s stuck-timeout had been
exceeded at that check. -/
def allowsReload : Option (Bool × Nat) → Bool
  | none => true
  | some (r, e) => !r || decide (300 < e)

/-- One event is acceptable in a given scanner state: reload events
need permission, everything else is free. -/
def evOk (s : Option (Bool × Nat)) : Ev → Bool
  | .reload _ _ => allowsReload s
  | _ => true

/-- Every reload in the trace happens in a state that permits it. -/
def reloadsOk : Option (Bool × Nat) → List Ev → Bool
  | _, [] => true
  | s, e :: rest => evOk s e && reloadsOk (scanStep s e) rest

/-- Shape of gentle-wait events: only queue classifications and
sleeps of 5 to 10 seconds, never a reload. -/
def isGentleEv : Ev → Bool
  | .queueCheck _ _ _ => true
  | .sleep _ d => decide (5 ≤ d) && decide (d ≤ 10)
  | _ => false

/-- True for events other than reloads. -/
def evNotReload : Ev → Bool
  | .reload _ _ => false
  | _ => true

/-- Local check for the retry property: a failed reload must be
followed directly by the backoff sleep the source performs at the
same time, 5 s after a PWTimeout and 10 s after any other
exception; every other event is unconstrained. -/
def retryCheck (e : Ev) (rest : List Ev) : Bool :=
  match e, rest with
  | .reload t .timeout, .sleep t2 d :: _ => t2 == t && d == 5
  | .reload _ .timeout, _ => false
  | .reload t .err, .sleep t2 d :: _ => t2 == t && d == 10
  | .reload _ .err, _ => false
  | _, _ => true

/-- Every failed reload in the trace is immediately followed by the
local backoff sleep the source performs. -/
def retryShape : List Ev → Bool
  | [] => true
  | e :: rest => retryCheck e rest && retryShape rest

/-- Events that are not failed reloads. -/
def evBenign : Ev → Bool
  | .reload _ .timeout => false
  | .reload _ .err => false
  | _ => true

/-- Result of the is_visible probe inside detect_captcha (lines
42-50): a boolean, a PWTimeout, or another exception.  The source
catches both exception kinds and returns False. -/
inductive VisOutcome
| ok (b : Bool)
| timeout
| err
deriving DecidableEq, Repr

/-- detect_captcha (lines 42-50): returns the probe result, and
False whenever the probe raised. -/
def detect_captcha : VisOutcome → Bool
  | .ok b => b
  | .timeout => false
  | .err => false

/-- Page behaviour visible to the CAPTCHA gate: the probe outcome
at the captcha_check entry, and the probe outcome at each re-poll
index of wait_for_captcha. -/
structure CaptchaEnv where
  initialProbe : VisOutcome
  probe : Nat → VisOutcome

/-- Observable action of the CAPTCHA gate: the operator prompt, the
blocking input() acknowledgment, a detection re-poll with its index
and result, and the fixed sleep of d seconds after a still-present
poll. -/
inductive CEv
| prompt
| operatorAck
| poll (i : Nat) (r : Bool)
| sleepC (i d : Nat)
deriving DecidableEq, Repr

/-- Re-poll loop of wait_for_captcha (lines 56-60): for _ in
range(10): if not detect_captcha(page): break; time.sleep(3).
First argument is the remaining range budget, second the poll
index. -/
def captchaPolls (env : CaptchaEnv) : Nat → Nat → List CEv
  | 0, _ => []
  | k+1, i =>
    if detect_captcha (env.probe i) then
      .poll i true :: .sleepC i 3 :: captchaPolls env k (i+1)
    else [.poll i false]

/-- wait_for_captcha (lines 52-60): print the prompt, block on
input(), then re-poll at most 10 times. -/
def wait_for_captcha (env : CaptchaEnv) : List CEv :=
  .prompt :: .operatorAck :: captchaPolls env 10 0

/-- captcha_check (lines 62-64): run wait_for_captcha only when
detect_captcha fires; otherwise do nothing.  The returned trace is
the complete list of side effects, so the empty trace is the no-op
case. -/
def captcha_check (env : CaptchaEnv) : List CEv :=
  if detect_captcha env.initialProbe then wait_for_captcha env else []

/-- Number of re-poll probes in a CAPTCHA trace. -/
def countPolls (evs : List CEv) : Nat :=
  evs.countP fun e => match e with
    | .poll _ _ => true
    | _ => false

/-- Substring test embedding the Python expression p in s. -/
def strContains (s pat : String) : Bool :=
  (List.range (s.data.length + 1)).any fun i => pat.data.isPrefixOf (s.data.drop i)

/-- ASCII lower-casing embedding Python str.lower() for the size
strings the program compares. -/
def pyLower (s : String) : String := String.mk (s.data.map Char.toLower)

/-- A network response as observed by page.expect_response: request
method, URL and status code. -/
structure AtcResponse where
  method : String
  url : String
  status : Nat
deriving DecidableEq, Repr

/-- is_atc_response (lines 199-205): a response acknowledges the
add-to-cart when its method is POST or PUT, its URL contains one of
the cart-endpoint fragments, and its status is 2xx. -/
def is_atc_response (r : AtcResponse) : Bool :=
  (r.method == "POST" || r.method == "PUT")
  && (["/cart", "/api/cart", "add_to_cart"].any fun p => strContains r.url p)
  && (200 ≤ r.status && r.status < 300)

/-- Condition of line 172 deciding whether a size must be selected:
size and size.lower() not in ("one size", "onesize"). -/
def sizeRequired (size : String) : Bool :=
  !(size == "") && !(pyLower size == "one size") && !(pyLower size == "onesize")

/-- Outcome of one item-locate attempt (lines 151-161): the image
was visible and the click succeeded; the image was not visible; or
the locate or click raised (PWTimeout or other, both swallowed by
the inner handler). -/
inductive LocOutcome
| found
| absent
| raised
deriving DecidableEq, Repr

/-- Exception site for failures that reach the outer handler of
add_item_to_cart (line 216) and so become a FAILED result: the
initial wait_for_load_state, the reload after a queue episode (line
148), the reload after a missed locate (line 165), the add-to-cart
button wait, the expect_response acknowledgment timeout, and the
post-condition UI evidence timeout. -/
inductive ExcSource
| initialLoad
| reloadDuringQueue (t : Nat)
| reloadAfterMiss (t : Nat)
| atcButtonMissing
| ackTimeout
| uiTimeout
deriving DecidableEq, Repr

/-- Reason attached to a FAILED acquisition result: the item was
never found before the deadline (lines 167-169); the size-selection
step raised a non-timeout exception and its handler enumerated the
offered option labels before returning False (lines 182-189); or an
exception reached the outer handler. -/
inductive AtcFail
| notFound
| sizeSelectError (offered : List String)
| exc (e : ExcSource)
deriving DecidableEq, Repr

/-- Acquisition result of add_item_to_cart: True or False in the
source. -/
inductive AtcOutcome
| success
| failed (f : AtcFail)
deriving DecidableEq, Repr

/-- Page behaviour visible to add_item_to_cart: the initial
wait_for_load_state outcome, the queue probe, the per-time locate
outcome, the per-time reload outcome, the two random draws, whether
the size dropdown becomes visible within its 5 s wait, whether the
click or select_option call on the visible dropdown raises a
non-timeout exception (wrong element kind, detachment, strict-mode
violation), the option labels the dropdown offers, whether the
add-to-cart button becomes visible within its 10 s wait, the
responses arriving within the 15 s expect_response window, and
whether the cart-evidence selector appears within its 10 s wait. -/
structure AtcEnv where
  loadOutcome : PWOutcome
  queueAt : Nat → Bool
  locateOutcome : Nat → LocOutcome
  reloadOutcome : Nat → PWOutcome
  queueJitter : Nat → Nat
  locJitter : Nat → Nat
  sizeSelVisible : Bool
  sizeSelRaises : Bool
  offered : List String
  atcBtnVisible : Bool
  responses : List AtcResponse
  uiEvidence : Bool

/-- Result of the locate loop of add_item_to_cart (lines 136-169):
the item was found (with the time), the deadline passed without
finding it, or an exception escaped to the outer handler. -/
inductive LocateRes
| foundRes (t : Nat)
| notFoundRes
| excRes (e : ExcSource)
deriving DecidableEq, Repr

/-- Locate loop of add_item_to_cart (lines 136-169), run from time 0
with deadline 300: while time < deadline, a QUEUED page enters the
gentle-wait sub-loop and then reloads (a reload failure escapes to
the outer handler); otherwise one locate attempt is made, a found
item exits the loop, and a miss sleeps random.uniform(5, 15) and
reloads (again escaping on failure).  First numeric argument is the
fuel, second the current time; fuel 62 is proved sufficient
below. -/
def atcLocate (env : AtcEnv) : Nat → Nat → Option LocateRes
  | 0, _ => none
  | fuel+1, t =>
    if t < 300 then
      if env.queueAt t then
        match (gentleWait env.queueAt env.queueJitter t t 62).1 with
        | none => none
        | some t1 =>
          match env.reloadOutcome t1 with
          | .ok => atcLocate env fuel t1
          | _ => some (.excRes (.reloadDuringQueue t1))
      else
        match env.locateOutcome t with
        | .found => some (.foundRes t)
        | _ =>
          let d := 5 + env.locJitter t % 11
          match env.reloadOutcome (t + d) with
          | .ok => atcLocate env fuel (t + d)
          | _ => some (.excRes (.reloadAfterMiss (t + d)))
    else some .notFoundRes

/-- Size-selection step (lines 171-191).  No size is required for a
falsy or one-size string.  When required, a dropdown that never
becomes visible makes wait_for raise PWTimeout, which the first
handler logs and skips without failing.  On a visible dropdown,
click and select_option run: a non-timeout exception from them hits
the second handler, which enumerates the offered options and
returns False; otherwise select_option either matches the label or
— when the label is absent among the options — times out with the
same PWTimeout, again caught by the first handler, so both of those
cases continue without failing.  The result is the failure this
step produces, if any. -/
def sizeSelectStage (env : AtcEnv) (size : String) : Option AtcFail :=
  if sizeRequired size then
    if env.sizeSelVisible then
      if env.sizeSelRaises then some (.sizeSelectError env.offered)
      else if env.offered.contains size then none
      else none
    else none
  else none

/-- Add-to-cart click and double confirmation (lines 194-214): the
button must become visible, the click must be acknowledged by a
response satisfying is_atc_response within the expect_response
window, and the cart-evidence selector must appear afterwards; each
missing piece raises to the outer handler and yields False. -/
def atcClickStage (env : AtcEnv) : AtcOutcome :=
  if env.atcBtnVisible then
    if env.responses.any is_atc_response then
      if env.uiEvidence then .success else .failed (.exc .uiTimeout)
    else .failed (.exc .ackTimeout)
  else .failed (.exc .atcButtonMissing)

/-- add_item_to_cart (lines 124-218).  The outer try makes every
exception a False return, so the embedding is total with an
explicit failure reason; none only flags exhausted fuel, which the
termination theorem rules out.  The keywords argument only selects
page elements through the environment probes, mirroring the
source. -/
def addItemToCart (env : AtcEnv) (keywords size : String) : Option AtcOutcome :=
  match env.loadOutcome with
  | .ok =>
    match atcLocate env 62 0 with
    | none => none
    | some (.excRes e) => some (.failed (.exc e))
    | some .notFoundRes => some (.failed .notFound)
    | some (.foundRes _) =>
      match sizeSelectStage env size with
      | some f => some (.failed f)
      | none => some (atcClickStage env)
  | _ => some (.failed (.exc .initialLoad))

/-- Observable step of the buy orchestrator: navigations to the
listing page, captcha_check calls, the single wait_for_drop call
with its keywords argument, one acquisition per item (index,
keywords, size, boolean result), the partial-failure report, and
the three checkout operations with the success of their internally
caught bodies. -/
inductive BuyEv
| goto
| captcha
| monitor (kw : String)
| acquire (idx : Nat) (kw size : String) (success : Bool)
| reportFailed (failed : List String)
| checkoutClick (ok : Bool)
| fillInfo (ok : Bool)
| sendOrder (ok : Bool)
deriving DecidableEq, Repr

/-- How a buy run ends: still inside the unbounded monitor loop when
its fuel ran out, aborted before checkout with the failed keywords,
or ran the checkout pipeline to the end. -/
inductive BuyResult
| stuck
| aborted (failed : List String)
| completed
deriving DecidableEq, Repr

/-- Environment of one buy run: the page behaviour during
monitoring, the fuel granted to the unbounded monitor loop, the
page behaviour during each item acquisition (indexed by item
position, since the page evolves between items), and whether the
internally guarded bodies of click_checkout, fill_info and
send_order succeed. -/
structure BuyEnv where
  monitorEnv : MonitorEnv
  monitorFuel : Nat
  atcEnv : Nat → AtcEnv
  clickCheckoutOk : Bool
  fillInfoOk : Bool
  sendOrderOk : Bool

/-- Per-item loop of buy (lines 334-341): each item is acquired and
its (keywords, success) pair put on the results queue, captcha_check
runs after each acquisition, and every item except the last is
followed by a navigation back to the listing page plus another
captcha_check.  Returns the queue contents in FIFO order and the
trace. -/
def buyItemsLoop (env : BuyEnv) : Nat → List (String × String) →
    List (String × Bool) × List BuyEv
  | _, [] => ([], [])
  | idx, (kw, size) :: rest =>
    let success := addItemToCart (env.atcEnv idx) kw size == some .success
    let tail := buyItemsLoop env (idx+1) rest
    let navEvs : List BuyEv := if rest.isEmpty then [] else [.goto, .captcha]
    ((kw, success) :: tail.1,
     .acquire idx kw size success :: .captcha :: (navEvs ++ tail.2))

/-- Checkout pipeline as buy invokes it (lines 353-356):
click_checkout, captcha_check, fill_info, send_order, each checkout
operation with its own internal try/except that logs and returns
normally. -/
def buyCheckoutEvs (env : BuyEnv) : List BuyEv :=
  [.checkoutClick env.clickCheckoutOk, .captcha,
   .fillInfo env.fillInfoOk, .sendOrder env.sendOrderOk]

/-- Result aggregation of buy (lines 343-356): drain the results
queue, collect the keywords of unsuccessful items in order, report
and return when any failed, otherwise run the checkout pipeline. -/
def buyAfterAcquisition (env : BuyEnv) (results : List (String × Bool)) :
    BuyResult × List BuyEv :=
  let failed := (results.filter fun r => !r.2).map fun r => r.1
  if failed.isEmpty then (.completed, buyCheckoutEvs env)
  else (.aborted failed, [.reportFailed failed])

/-- buy (lines 318-361): navigate to the listing page, captcha
check, monitor for the drop keyed to the first item when the list
is nonempty, acquire each item, then aggregate and either abort or
check out.  A monitor that never observes LIVE within its fuel
leaves the run stuck with no further events, matching the unbounded
source loop. -/
def buyRun (env : BuyEnv) (items : List (String × String)) :
    BuyResult × List BuyEv :=
  match items with
  | [] =>
    let post := buyAfterAcquisition env []
    (post.1, .goto :: .captcha :: post.2)
  | (kw0, _) :: _ =>
    match (waitForDrop env.monitorEnv env.monitorFuel 0).1 with
    | none => (.stuck, [.goto, .captcha, .monitor kw0])
    | some _ =>
      let loopR := buyItemsLoop env 0 items
      let post := buyAfterAcquisition env loopR.1
      (post.1, .goto :: .captcha :: .monitor kw0 :: (loopR.2 ++ post.2))

/-- An event is one of the three checkout operations. -/
def isCheckoutOp : BuyEv → Bool
  | .checkoutClick _ => true
  | .fillInfo _ => true
  | .sendOrder _ => true
  | _ => false

/-- The checkout pipeline was entered: the trace contains the
click_checkout invocation. -/
def checkoutInvoked (evs : List BuyEv) : Bool :=
  evs.any fun e => match e with
    | .checkoutClick _ => true
    | _ => false

/-- Number of checkout operations in a trace. -/
def checkoutOpsCount (evs : List BuyEv) : Nat :=
  evs.countP isCheckoutOp

/-- Every acquisition result of the run is SUCCESS. -/
def allItemsSucceed (env : BuyEnv) (items : List (String × String)) : Bool :=
  items.enum.all fun p => addItemToCart (env.atcEnv p.1) p.2.1 p.2.2 == some .success

/-- Keywords of the wait_for_drop calls appearing in a buy trace. -/
def monitorKeywords (evs : List BuyEv) : List String :=
  evs.filterMap fun e => match e with
    | .monitor kw => some kw
    | _ => none

/-- The gentle-wait loop never returns an exit time earlier than its
entry time. -/
theorem gentleWait_fst_mono (q : Nat → Bool) (j : Nat → Nat) (qs : Nat) :
    ∀ fuel t te, (gentleWait q j qs t fuel).1 = some te → t ≤ te := by
  intro fuel
  induction fuel with
  | zero => intro t te h; simp [gentleWait] at h
  | succ n ih =>
    intro t te h
    simp only [gentleWait] at h
    by_cases hq : q t
    · by_cases h3 : t - qs > 300
      · simp [hq, h3] at h; omega
      · simp [hq, h3] at h
        have := ih (t + (5 + j t % 6)) te h
        omega
    · simp [hq] at h; omega

/-- Adequate fuel makes the gentle-wait loop exit: each pass sleeps
at least 5 seconds and the loop stops once 300 seconds have elapsed
since queue_start. -/
theorem gentleWait_isSome (q : Nat → Bool) (j : Nat → Nat) (qs : Nat) :
    ∀ fuel t, qs ≤ t → 301 ≤ (t - qs) + 5 * fuel →
      ((gentleWait q j qs t (fuel+1)).1).isSome := by
  intro fuel
  induction fuel with
  | zero =>
    intro t hqs h
    simp only [gentleWait]
    by_cases hq : q t
    · have h3 : t - qs > 300 := by omega
      simp [hq, h3]
    · simp [hq]
  | succ n ih =>
    intro t hqs h
    simp only [gentleWait]
    by_cases hq : q t
    · by_cases h3 : t - qs > 300
      · simp [hq, h3]
      · have := ih (t + (5 + j t % 6)) (by omega) (by omega)
        simpa [hq, h3] using this
    · simp [hq]

/-- Fuel 62 always suffices for a gentle-wait loop entered at its
queue_start time. -/
theorem gentleWait_self_isSome (q : Nat → Bool) (j : Nat → Nat) (t : Nat) :
    ((gentleWait q j t t 62).1).isSome := by
  have h := gentleWait_isSome q j t 61 t (Nat.le_refl t) (by omega)
  simpa using h

/-- A gentle-wait loop entered on a queued page sleeps at least once
before exiting, so its exit time is at least 5 seconds later. -/
theorem gentleWait_exit_ge (q : Nat → Bool) (j : Nat → Nat) :
    ∀ fuel t te, q t = true → (gentleWait q j t t (fuel+1)).1 = some te →
      t + 5 ≤ te := by
  intro fuel t te hq h
  simp only [gentleWait] at h
  have h3 : ¬ (t - t > 300) := by omega
  simp [hq, h3] at h
  have := gentleWait_fst_mono q j t fuel (t + (5 + j t % 6)) te h
  omega

/-- Specialization of the exit bound to the fuel-62 call sites. -/
theorem gentleWait_self_exit_ge (q : Nat → Bool) (j : Nat → Nat) (t te : Nat)
    (hq : q t = true) (h : (gentleWait q j t t 62).1 = some te) : t + 5 ≤ te :=
  gentleWait_exit_ge q j 61 t te hq h

/-- Everything the gentle-wait loop emits is a queue classification
or a sleep of 5 to 10 seconds; in particular it never reloads. -/
theorem gentleWait_shape (q : Nat → Bool) (j : Nat → Nat) (qs : Nat) :
    ∀ fuel t, ((gentleWait q j qs t fuel).2.all isGentleEv) = true := by
  intro fuel
  induction fuel with
  | zero => intro t; simp [gentleWait]
  | succ n ih =>
    intro t
    simp only [gentleWait]
    by_cases hq : q t
    · by_cases h3 : t - qs > 300
      · simp [hq, h3, isGentleEv]
      · have hd5 : 5 ≤ 5 + j t % 6 := by omega
        have hd10 : 5 + j t % 6 ≤ 10 := by omega
        simp [hq, h3, isGentleEv, ih (t + (5 + j t % 6)), hd5, hd10]
    · simp [hq, isGentleEv]

/-- The gentle-wait trace contains no reload event. -/
theorem gentleWait_noReload (q : Nat → Bool) (j : Nat → Nat) (qs fuel t : Nat) :
    ((gentleWait q j qs t fuel).2.all evNotReload) = true := by
  have h := gentleWait_shape q j qs fuel t
  rw [List.all_eq_true] at h ⊢
  intro e he
  have h2 := h e he
  cases e <;> simp_all [isGentleEv, evNotReload]

/-- When the gentle-wait loop exits normally, the scanner state
after its trace permits a reload: the last classification either
showed the queue gone or showed the stuck-timeout exceeded. -/
theorem gentleWait_scan_exit (q : Nat → Bool) (j : Nat → Nat) (qs : Nat) :
    ∀ fuel t te s, (gentleWait q j qs t fuel).1 = some te →
      allowsReload (scanState s (gentleWait q j qs t fuel).2) = true := by
  intro fuel
  induction fuel with
  | zero => intro t te s h; simp [gentleWait] at h
  | succ n ih =>
    intro t te s h
    simp only [gentleWait] at h ⊢
    by_cases hq : q t
    · by_cases h3 : t - qs > 300
      · simp [hq, h3, scanState, scanStep, allowsReload]
      · simp only [hq, h3, if_true, if_false] at h ⊢
        simp only [scanState, List.foldl, scanStep] at h ⊢
        exact ih (t + (5 + j t % 6)) te (some (true, t - qs)) (by simpa using h)
    · simp [hq, scanState, scanStep, allowsReload]

/-- Splitting reloadsOk along an append. -/
theorem reloadsOk_append : ∀ (xs : List Ev) (s : Option (Bool × Nat)) (ys : List Ev),
    reloadsOk s (xs ++ ys) = (reloadsOk s xs && reloadsOk (scanState s xs) ys)
  | [], s, ys => by simp [reloadsOk, scanState]
  | e :: rest, s, ys => by
    simp only [List.cons_append, reloadsOk, scanState, List.foldl, List.append_eq]
    rw [reloadsOk_append rest (scanStep s e) ys, Bool.and_assoc]
    rfl

/-- A trace without reload events satisfies reloadsOk in every
scanner state. -/
theorem reloadsOk_of_notReload : ∀ (xs : List Ev) (s : Option (Bool × Nat)),
    xs.all evNotReload = true → reloadsOk s xs = true
  | [], _, _ => by simp [reloadsOk]
  | e :: rest, s, h => by
    simp only [List.all_cons, Bool.and_eq_true] at h
    have he : evOk s e = true := by
      cases e <;> simp_all [evNotReload, evOk]
    simp [reloadsOk, he, reloadsOk_of_notReload rest (scanStep s e) h.2]

/-- The retry check holds vacuously at a benign event. -/
theorem retryCheck_benign (e : Ev) (h : evBenign e = true) (l : List Ev) :
    retryCheck e l = true := by
  match e, h with
  | .reload t .ok, _ => cases l <;> simp [retryCheck]
  | .captcha t, _ => cases l <;> simp [retryCheck]
  | .queueCheck t el r, _ => cases l <;> simp [retryCheck]
  | .visCheck t r, _ => cases l <;> simp [retryCheck]
  | .sleep t d, _ => cases l <;> simp [retryCheck]

/-- Events without reloads are benign for the retry property. -/
theorem benign_of_notReload (xs : List Ev) (h : xs.all evNotReload = true) :
    xs.all evBenign = true := by
  rw [List.all_eq_true] at h ⊢
  intro e he
  have h2 := h e he
  match e, h2 with
  | .captcha t, _ => rfl
  | .queueCheck t el r, _ => rfl
  | .visCheck t r, _ => rfl
  | .sleep t d, _ => rfl
  | .reload t o, h2 => simp [evNotReload] at h2

/-- Dropping a benign prefix leaves retryShape unchanged. -/
theorem retryShape_append : ∀ (xs ys : List Ev), xs.all evBenign = true →
    retryShape (xs ++ ys) = retryShape ys
  | [], ys, _ => by simp
  | e :: rest, ys, h => by
    simp only [List.all_cons, Bool.and_eq_true] at h
    simp [retryShape, retryCheck_benign e h.1, retryShape_append rest ys h.2]

/-- A trace of benign events satisfies the retry property. -/
theorem retryShape_of_benign : ∀ (xs : List Ev), xs.all evBenign = true →
    retryShape xs = true
  | [], _ => rfl
  | e :: rest, h => by
    simp only [List.all_cons, Bool.and_eq_true] at h
    simp [retryShape, retryCheck_benign e h.1, retryShape_of_benign rest h.2]

/-- wait_for_drop only ever returns after observing the item
visible: its sole normal exit is the LIVE classification, so no
transient error is ever surfaced as a monitoring result. -/
theorem waitForDrop_live (env : MonitorEnv) :
    ∀ fuel t, ((waitForDrop env fuel t).1.all env.visibleAt) = true := by
  intro fuel
  induction fuel with
  | zero => intro t; simp [waitForDrop, Option.all]
  | succ n ih =>
    intro t
    simp only [waitForDrop]
    cases hr : env.reloadOutcome t with
    | timeout => simpa using ih (t+5)
    | err => simpa using ih (t+10)
    | ok =>
      by_cases hq : env.queueAt t
      · simp only [hq, if_true]
        cases hg : (gentleWait env.queueAt env.queueJitter t t 62).1 with
        | none => simp [Option.all]
        | some t1 => simpa using ih t1
      · by_cases hv : env.visibleAt t
        · simp [hq, hv, Option.all]
        · simpa [hq, hv] using ih (t + (5 + env.dropJitter t % 11))

/-- Core of the queued-reload invariant: starting from any scanner
state that permits a reload, every reload in the wait_for_drop
trace is permitted — the page was never reloaded while the last
classification showed QUEUED within its stuck-timeout. -/
theorem waitForDrop_reloadsOk (env : MonitorEnv) :
    ∀ fuel t s, allowsReload s = true →
      reloadsOk s (waitForDrop env fuel t).2 = true := by
  intro fuel
  induction fuel with
  | zero => intro t s hs; simp [waitForDrop, reloadsOk]
  | succ n ih =>
    intro t s hs
    simp only [waitForDrop]
    cases hr : env.reloadOutcome t with
    | timeout =>
      simp only [reloadsOk, evOk, scanStep, hs, Bool.true_and]
      exact ih (t+5) s hs
    | err =>
      simp only [reloadsOk, evOk, scanStep, hs, Bool.true_and]
      exact ih (t+10) s hs
    | ok =>
      by_cases hq : env.queueAt t
      · simp only [hq, if_true]
        cases hg : (gentleWait env.queueAt env.queueJitter t t 62).1 with
        | none =>
          simp only [reloadsOk, evOk, scanStep, hs, Bool.true_and]
          exact reloadsOk_of_notReload _ _ (gentleWait_noReload _ _ _ _ _)
        | some t1 =>
          simp only [reloadsOk, evOk, scanStep, hs, Bool.true_and]
          rw [reloadsOk_append]
          have h1 := reloadsOk_of_notReload
            (gentleWait env.queueAt env.queueJitter t t 62).2
            (some (true, 0)) (gentleWait_noReload _ _ _ _ _)
          have h2 := gentleWait_scan_exit env.queueAt env.queueJitter t 62 t t1
            (some (true, 0)) hg
          rw [h1, ih t1 _ h2]
          rfl
      · by_cases hv : env.visibleAt t
        · simp [hq, hv, reloadsOk, evOk, scanStep, hs]
        · simp only [hq, hv, if_true, if_false,
            reloadsOk, evOk, scanStep, hs, Bool.true_and]
          exact ih (t + (5 + env.dropJitter t % 11)) (some (false, 0)) rfl

/-- Every failed reload during monitoring is followed by its local
backoff sleep: 5 s for a PWTimeout, 10 s for any other exception,
after which the loop simply continues. -/
theorem waitForDrop_retryShape (env : MonitorEnv) :
    ∀ fuel t, retryShape (waitForDrop env fuel t).2 = true := by
  intro fuel
  induction fuel with
  | zero => intro t; simp [waitForDrop, retryShape]
  | succ n ih =>
    intro t
    simp only [waitForDrop]
    cases hr : env.reloadOutcome t with
    | timeout =>
      simp [retryShape, retryCheck, ih (t+5)]
    | err =>
      simp [retryShape, retryCheck, ih (t+10)]
    | ok =>
      have hbg := benign_of_notReload _
        (gentleWait_noReload env.queueAt env.queueJitter t 62 t)
      by_cases hq : env.queueAt t
      · simp only [hq, if_true]
        cases hg : (gentleWait env.queueAt env.queueJitter t t 62).1 with
        | none =>
          simp only [retryShape, retryCheck, Bool.true_and]
          exact retryShape_of_benign _ hbg
        | some t1 =>
          simp only [retryShape, retryCheck, Bool.true_and]
          rw [retryShape_append _ _ hbg]
          exact ih t1
      · by_cases hv : env.visibleAt t
        · simp [hq, hv, retryShape, retryCheck]
        · simp only [hq, hv, if_true, if_false, retryShape, retryCheck, Bool.true_and]
          exact ih (t + (5 + env.dropJitter t % 11))

/-- One-step equation: past the deadline the locate loop reports the
item not found. -/
theorem atcLocate_deadline (env : AtcEnv) (fuel t : Nat) (h3 : ¬ t < 300) :
    atcLocate env (fuel+1) t = some .notFoundRes := by
  simp [atcLocate, h3]

/-- One-step equation: a queue episode whose closing reload works
continues the loop at the gentle-wait exit time. -/
theorem atcLocate_queue_ok (env : AtcEnv) (fuel t t1 : Nat) (h3 : t < 300)
    (hq : env.queueAt t = true)
    (hg : (gentleWait env.queueAt env.queueJitter t t 62).1 = some t1)
    (hr : env.reloadOutcome t1 = .ok) :
    atcLocate env (fuel+1) t = atcLocate env fuel t1 := by
  simp [atcLocate, h3, hq, hg, hr]

/-- One-step equation: a queue episode whose closing reload raises
escapes to the outer handler. -/
theorem atcLocate_queue_fail (env : AtcEnv) (fuel t t1 : Nat) (h3 : t < 300)
    (hq : env.queueAt t = true)
    (hg : (gentleWait env.queueAt env.queueJitter t t 62).1 = some t1)
    (hr : env.reloadOutcome t1 ≠ .ok) :
    atcLocate env (fuel+1) t = some (.excRes (.reloadDuringQueue t1)) := by
  cases hrv : env.reloadOutcome t1 with
  | ok => exact absurd hrv hr
  | timeout => simp [atcLocate, h3, hq, hg, hrv]
  | err => simp [atcLocate, h3, hq, hg, hrv]

/-- One-step equation: a visible item is found and clicked. -/
theorem atcLocate_found (env : AtcEnv) (fuel t : Nat) (h3 : t < 300)
    (hq : env.queueAt t = false) (hl : env.locateOutcome t = .found) :
    atcLocate env (fuel+1) t = some (.foundRes t) := by
  simp [atcLocate, h3, hq, hl]

/-- One-step equation: a missed locate attempt sleeps with jitter
and reloads; a working reload continues the loop. -/
theorem atcLocate_miss_ok (env : AtcEnv) (fuel t : Nat) (h3 : t < 300)
    (hq : env.queueAt t = false) (hl : env.locateOutcome t ≠ .found)
    (hr : env.reloadOutcome (t + (5 + env.locJitter t % 11)) = .ok) :
    atcLocate env (fuel+1) t = atcLocate env fuel (t + (5 + env.locJitter t % 11)) := by
  cases hlv : env.locateOutcome t with
  | found => exact absurd hlv hl
  | absent => simp [atcLocate, h3, hq, hlv, hr]
  | raised => simp [atcLocate, h3, hq, hlv, hr]

/-- One-step equation: a missed locate attempt whose reload raises
escapes to the outer handler. -/
theorem atcLocate_miss_fail (env : AtcEnv) (fuel t : Nat) (h3 : t < 300)
    (hq : env.queueAt t = false) (hl : env.locateOutcome t ≠ .found)
    (hr : env.reloadOutcome (t + (5 + env.locJitter t % 11)) ≠ .ok) :
    atcLocate env (fuel+1) t =
      some (.excRes (.reloadAfterMiss (t + (5 + env.locJitter t % 11)))) := by
  cases hlv : env.locateOutcome t with
  | found => exact absurd hlv hl
  | absent =>
    cases hrv : env.reloadOutcome (t + (5 + env.locJitter t % 11)) with
    | ok => exact absurd hrv hr
    | timeout => simp [atcLocate, h3, hq, hlv, hrv]
    | err => simp [atcLocate, h3, hq, hlv, hrv]
  | raised =>
    cases hrv : env.reloadOutcome (t + (5 + env.locJitter t % 11)) with
    | ok => exact absurd hrv hr
    | timeout => simp [atcLocate, h3, hq, hlv, hrv]
    | err => simp [atcLocate, h3, hq, hlv, hrv]

/-- Adequate fuel makes the acquisition locate loop return: every
continuing iteration advances the clock by at least 5 seconds and
the loop stops at the 300 second deadline. -/
theorem atcLocate_isSome (env : AtcEnv) :
    ∀ fuel t, 300 ≤ t + 5 * fuel → (atcLocate env (fuel+1) t).isSome := by
  intro fuel
  induction fuel with
  | zero =>
    intro t h
    rw [atcLocate_deadline env 0 t (by omega)]
    rfl
  | succ n ih =>
    intro t h
    by_cases h3 : t < 300
    · by_cases hq : env.queueAt t
      · obtain ⟨t1, hg⟩ := Option.isSome_iff_exists.mp
          (gentleWait_self_isSome env.queueAt env.queueJitter t)
        have ht1 : t + 5 ≤ t1 := gentleWait_self_exit_ge _ _ _ _ hq hg
        cases hr : env.reloadOutcome t1 with
        | ok =>
          rw [atcLocate_queue_ok env (n+1) t t1 h3 hq hg hr]
          exact ih t1 (by omega)
        | timeout =>
          rw [atcLocate_queue_fail env (n+1) t t1 h3 hq hg (by simp [hr])]; rfl
        | err =>
          rw [atcLocate_queue_fail env (n+1) t t1 h3 hq hg (by simp [hr])]; rfl
      · have hq2 : env.queueAt t = false := by simpa using hq
        cases hl : env.locateOutcome t with
        | found => rw [atcLocate_found env (n+1) t h3 hq2 hl]; rfl
        | absent =>
          cases hr : env.reloadOutcome (t + (5 + env.locJitter t % 11)) with
          | ok =>
            rw [atcLocate_miss_ok env (n+1) t h3 hq2 (by simp [hl]) hr]
            exact ih _ (by omega)
          | timeout =>
            rw [atcLocate_miss_fail env (n+1) t h3 hq2 (by simp [hl]) (by simp [hr])]; rfl
          | err =>
            rw [atcLocate_miss_fail env (n+1) t h3 hq2 (by simp [hl]) (by simp [hr])]; rfl
        | raised =>
          cases hr : env.reloadOutcome (t + (5 + env.locJitter t % 11)) with
          | ok =>
            rw [atcLocate_miss_ok env (n+1) t h3 hq2 (by simp [hl]) hr]
            exact ih _ (by omega)
          | timeout =>
            rw [atcLocate_miss_fail env (n+1) t h3 hq2 (by simp [hl]) (by simp [hr])]; rfl
          | err =>
            rw [atcLocate_miss_fail env (n+1) t h3 hq2 (by simp [hl]) (by simp [hr])]; rfl
    · rw [atcLocate_deadline env (n+1) t h3]; rfl

/-- When the item is never found and navigation never fails, the
locate loop can only report that the item was not found. -/
theorem atcLocate_notFound (env : AtcEnv)
    (hloc : ∀ u, env.locateOutcome u ≠ .found)
    (hrel : ∀ u, env.reloadOutcome u = .ok) :
    ∀ fuel t r, atcLocate env fuel t = some r → r = .notFoundRes := by
  intro fuel
  induction fuel with
  | zero => intro t r h; simp [atcLocate] at h
  | succ n ih =>
    intro t r h
    by_cases h3 : t < 300
    · by_cases hq : env.queueAt t
      · obtain ⟨t1, hg⟩ := Option.isSome_iff_exists.mp
          (gentleWait_self_isSome env.queueAt env.queueJitter t)
        rw [atcLocate_queue_ok env n t t1 h3 hq hg (hrel t1)] at h
        exact ih t1 r h
      · have hq2 : env.queueAt t = false := by simpa using hq
        rw [atcLocate_miss_ok env n t h3 hq2 (hloc t) (hrel _)] at h
        exact ih _ r h
    · rw [atcLocate_deadline env n t h3] at h
      simp only [Option.some_inj] at h
      exact h.symm

/-- A locate loop that reports the item found really observed the
found probe at a non-queued time before the deadline. -/
theorem atcLocate_found_char (env : AtcEnv) :
    ∀ fuel t u, atcLocate env fuel t = some (.foundRes u) →
      u < 300 ∧ env.queueAt u = false ∧ env.locateOutcome u = .found := by
  intro fuel
  induction fuel with
  | zero => intro t u h; simp [atcLocate] at h
  | succ n ih =>
    intro t u h
    by_cases h3 : t < 300
    · by_cases hq : env.queueAt t
      · cases hg : (gentleWait env.queueAt env.queueJitter t t 62).1 with
        | none =>
          exfalso
          have hs := gentleWait_self_isSome env.queueAt env.queueJitter t
          rw [hg] at hs
          simp at hs
        | some t1 =>
          cases hr : env.reloadOutcome t1 with
          | ok =>
            rw [atcLocate_queue_ok env n t t1 h3 hq hg hr] at h
            exact ih t1 u h
          | timeout =>
            rw [atcLocate_queue_fail env n t t1 h3 hq hg (by simp [hr])] at h
            simp at h
          | err =>
            rw [atcLocate_queue_fail env n t t1 h3 hq hg (by simp [hr])] at h
            simp at h
      · have hq2 : env.queueAt t = false := by simpa using hq
        cases hl : env.locateOutcome t with
        | found =>
          rw [atcLocate_found env n t h3 hq2 hl] at h
          simp only [Option.some_inj, LocateRes.foundRes.injEq] at h
          subst h
          exact ⟨h3, hq2, hl⟩
        | absent =>
          cases hr : env.reloadOutcome (t + (5 + env.locJitter t % 11)) with
          | ok =>
            rw [atcLocate_miss_ok env n t h3 hq2 (by simp [hl]) hr] at h
            exact ih _ u h
          | timeout =>
            rw [atcLocate_miss_fail env n t h3 hq2 (by simp [hl]) (by simp [hr])] at h
            simp at h
          | err =>
            rw [atcLocate_miss_fail env n t h3 hq2 (by simp [hl]) (by simp [hr])] at h
            simp at h
        | raised =>
          cases hr : env.reloadOutcome (t + (5 + env.locJitter t % 11)) with
          | ok =>
            rw [atcLocate_miss_ok env n t h3 hq2 (by simp [hl]) hr] at h
            exact ih _ u h
          | timeout =>
            rw [atcLocate_miss_fail env n t h3 hq2 (by simp [hl]) (by simp [hr])] at h
            simp at h
          | err =>
            rw [atcLocate_miss_fail env n t h3 hq2 (by simp [hl]) (by simp [hr])] at h
            simp at h
    · rw [atcLocate_deadline env n t h3] at h
      simp at h

/-- add_item_to_cart always returns a boolean: the outer handler
turns every exception into False and the deadline-bounded loops
exit within fuel 62. -/
theorem addItemToCart_total (env : AtcEnv) (kw size : String) :
    (addItemToCart env kw size).isSome := by
  unfold addItemToCart
  cases env.loadOutcome with
  | timeout => simp
  | err => simp
  | ok =>
    obtain ⟨r, hr⟩ := Option.isSome_iff_exists.mp
      (atcLocate_isSome env 61 0 (by omega))
    rw [hr]
    cases r with
    | foundRes t => cases sizeSelectStage env size <;> simp
    | notFoundRes => simp
    | excRes e => simp

/-- The results the item loop pushes are all successful exactly when
every indexed acquisition returned True. -/
theorem buyItemsLoop_results (env : BuyEnv) :
    ∀ (items : List (String × String)) (idx : Nat),
      ((buyItemsLoop env idx items).1.all fun r => r.2) =
        ((items.enumFrom idx).all fun p =>
          addItemToCart (env.atcEnv p.1) p.2.1 p.2.2 == some .success) := by
  intro items
  induction items with
  | nil => intro idx; rfl
  | cons it rest ih =>
    intro idx
    obtain ⟨kw, size⟩ := it
    simp [buyItemsLoop, List.enumFrom, ih (idx+1)]

/-- The failed-items list buy builds is empty exactly when every
queued result was successful. -/
theorem failed_isEmpty_iff_all (results : List (String × Bool)) :
    ((results.filter fun r => !r.2).map fun r => r.1).isEmpty =
      (results.all fun r => r.2) := by
  induction results with
  | nil => rfl
  | cons r rest ih =>
    obtain ⟨kw, s⟩ := r
    cases s <;> simp_all [List.filter_cons]

/-- Every event of the item loop is an acquisition, a captcha check
or a navigation. -/
theorem buyItemsLoop_events (env : BuyEnv) :
    ∀ (items : List (String × String)) (idx : Nat) (e : BuyEv),
      e ∈ (buyItemsLoop env idx items).2 →
      (∃ i k s b, e = BuyEv.acquire i k s b) ∨ e = .captcha ∨ e = .goto := by
  intro items
  induction items with
  | nil => intro idx e he; simp [buyItemsLoop] at he
  | cons it rest ih =>
    intro idx e he
    obtain ⟨kw, size⟩ := it
    simp only [buyItemsLoop, List.mem_cons, List.mem_append] at he
    rcases he with h1 | h1 | h1 | h1
    · exact Or.inl ⟨idx, kw, size, _, h1⟩
    · exact Or.inr (Or.inl h1)
    · by_cases hr : rest.isEmpty
      · simp [hr] at h1
      · rw [if_neg hr] at h1
        simp only [List.mem_cons, List.not_mem_nil, or_false] at h1
        rcases h1 with h1 | h1
        · exact Or.inr (Or.inr h1)
        · exact Or.inr (Or.inl h1)
    · exact ih (idx+1) e h1

/-- The item loop performs no checkout operation. -/
theorem buyItemsLoop_noCheckout (env : BuyEnv) (items : List (String × String))
    (idx : Nat) (e : BuyEv) (he : e ∈ (buyItemsLoop env idx items).2) :
    isCheckoutOp e = false := by
  rcases buyItemsLoop_events env items idx e he with ⟨i, k, s, b, rfl⟩ | rfl | rfl <;> rfl

/-- The item loop performs no wait_for_drop call. -/
theorem buyItemsLoop_noMonitor (env : BuyEnv) (items : List (String × String))
    (idx : Nat) : monitorKeywords (buyItemsLoop env idx items).2 = [] := by
  rw [monitorKeywords, List.filterMap_eq_nil_iff]
  intro e he
  rcases buyItemsLoop_events env items idx e he with ⟨i, k, s, b, rfl⟩ | rfl | rfl <;> rfl

/-- When every result is successful the aggregation runs the
checkout pipeline. -/
theorem buyAfterAcquisition_success (env : BuyEnv) (results : List (String × Bool))
    (h : (results.all fun r => r.2) = true) :
    buyAfterAcquisition env results = (.completed, buyCheckoutEvs env) := by
  have he : (((results.filter fun r => !r.2).map fun r => r.1).isEmpty) = true := by
    rw [failed_isEmpty_iff_all]; exact h
  simp [buyAfterAcquisition, he]

/-- When some result failed the aggregation reports and aborts. -/
theorem buyAfterAcquisition_failure (env : BuyEnv) (results : List (String × Bool))
    (h : (results.all fun r => r.2) = false) :
    buyAfterAcquisition env results =
      (.aborted ((results.filter fun r => !r.2).map fun r => r.1),
       [.reportFailed ((results.filter fun r => !r.2).map fun r => r.1)]) := by
  have he : (((results.filter fun r => !r.2).map fun r => r.1).isEmpty) = false := by
    rw [failed_isEmpty_iff_all]; exact h
  simp [buyAfterAcquisition, he]

/-- The aggregation never calls wait_for_drop. -/
theorem buyAfterAcquisition_noMonitor (env : BuyEnv) (results : List (String × Bool)) :
    monitorKeywords (buyAfterAcquisition env results).2 = [] := by
  cases hall : (results.all fun r => r.2) with
  | true => rw [buyAfterAcquisition_success env results hall]; rfl
  | false => rw [buyAfterAcquisition_failure env results hall]; rfl

/-- C1: buy invokes the checkout pipeline iff every item acquisition
returned SUCCESS, and when any item FAILED no checkout operation
(click_checkout, fill_info, send_order) appears in the run at all.
The hypothesis excludes runs still stuck inside the unbounded
monitoring loop, in which no item is ever processed. -/
theorem c1_checkout_iff_all_success (env : BuyEnv) (items : List (String × String))
    (h : (buyRun env items).1 ≠ .stuck) :
    (checkoutInvoked (buyRun env items).2 = true ↔ allItemsSucceed env items = true) ∧
    (allItemsSucceed env items = false → checkoutOpsCount (buyRun env items).2 = 0) := by
  match items with
  | [] =>
    constructor
    · simp [buyRun, buyAfterAcquisition, buyCheckoutEvs, checkoutInvoked, allItemsSucceed]
    · intro hfalse
      simp [allItemsSucceed] at hfalse
  | (kw0, s0) :: rest =>
    cases hm : (waitForDrop env.monitorEnv env.monitorFuel 0).1 with
    | none =>
      exfalso
      apply h
      simp [buyRun, hm]
    | some tm =>
      have hall : allItemsSucceed env ((kw0, s0) :: rest) =
          ((buyItemsLoop env 0 ((kw0, s0) :: rest)).1.all fun r => r.2) := by
        rw [buyItemsLoop_results]
        rfl
      cases hsucc : ((buyItemsLoop env 0 ((kw0, s0) :: rest)).1.all fun r => r.2) with
      | true =>
        have hpost := buyAfterAcquisition_success env
          (buyItemsLoop env 0 ((kw0, s0) :: rest)).1 hsucc
        constructor
        · rw [hall, hsucc]
          simp only [iff_true]
          simp [buyRun, hm, hpost, checkoutInvoked, buyCheckoutEvs]
        · intro hfalse
          rw [hall, hsucc] at hfalse
          exact absurd hfalse (by simp)
      | false =>
        have hpost := buyAfterAcquisition_failure env
          (buyItemsLoop env 0 ((kw0, s0) :: rest)).1 hsucc
        have hloop0 : ∀ e ∈ (buyItemsLoop env 0 ((kw0, s0) :: rest)).2,
            isCheckoutOp e = false :=
          fun e he => buyItemsLoop_noCheckout env _ 0 e he
        have hninv : checkoutInvoked (buyRun env ((kw0, s0) :: rest)).2 = false := by
          simp only [buyRun, hm, hpost, checkoutInvoked]
          rw [List.any_eq_false]
          intro e he
          simp only [List.mem_cons, List.mem_append, List.not_mem_nil, or_false] at he
          rcases he with rfl | rfl | rfl | he | rfl
          · simp
          · simp
          · simp
          · have h0 := hloop0 e he
            cases e <;> simp_all [isCheckoutOp]
          · simp
        constructor
        · rw [hall, hsucc, hninv]
        · intro _
          simp only [buyRun, hm, hpost, checkoutOpsCount]
          rw [List.countP_eq_zero]
          intro a ha
          simp only [List.mem_cons, List.mem_append, List.not_mem_nil, or_false] at ha
          rcases ha with rfl | rfl | rfl | ha | rfl
          · simp [isCheckoutOp]
          · simp [isCheckoutOp]
          · simp [isCheckoutOp]
          · simp [hloop0 a ha]
          · simp [isCheckoutOp]

/-- C7 counterexample: with a single successfully acquired item and
a click_checkout whose guarded body fails, buy still invokes
fill_info and send_order afterwards, so a checkout-stage failure
does not stop the remaining checkout operations. -/
def c7AtcEnv : AtcEnv :=
  ⟨.ok, fun _ => false, fun _ => .found, fun _ => .ok, fun _ => 0, fun _ => 0,
   true, false, [], true, [⟨"POST", "/cart/add", 200⟩], true⟩

/-- Monitoring environment that reports the page LIVE at once. -/
def c7MEnv : MonitorEnv :=
  ⟨fun _ => .ok, fun _ => false, fun _ => true, fun _ => 0, fun _ => 0⟩

/-- Run environment for the checkout-failure counterexample:
click_checkout fails, the other two stages work. -/
def c7Env : BuyEnv := ⟨c7MEnv, 1, fun _ => c7AtcEnv, false, true, true⟩

/-- C7 is refuted: the trace of this run contains the failed
click_checkout and nevertheless also fill_info and send_order. -/
theorem c7_counterexample :
    BuyEv.checkoutClick false ∈ (buyRun c7Env [("Hat", "One Size")]).2 ∧
    BuyEv.fillInfo true ∈ (buyRun c7Env [("Hat", "One Size")]).2 ∧
    BuyEv.sendOrder true ∈ (buyRun c7Env [("Hat", "One Size")]).2 := by
  decide

/-- C7 amended: a failing checkout-stage operation is caught and
logged inside that operation and never retried, and the run raises
no uncaught fault; but it is not terminal — whenever buy reaches
checkout it performs click_checkout, fill_info and send_order
exactly once each, in order, regardless of which of them fail. -/
theorem c7_checkout_failures_amended (env : BuyEnv) (items : List (String × String))
    (h : (buyRun env items).1 = .completed) :
    ∃ pre, (buyRun env items).2 = pre ++ buyCheckoutEvs env ∧
      checkoutOpsCount pre = 0 := by
  match items with
  | [] =>
    refine ⟨[.goto, .captcha], ?_, rfl⟩
    simp [buyRun, buyAfterAcquisition, buyCheckoutEvs]
  | (kw0, s0) :: rest =>
    cases hm : (waitForDrop env.monitorEnv env.monitorFuel 0).1 with
    | none => simp [buyRun, hm] at h
    | some tm =>
      cases hsucc : ((buyItemsLoop env 0 ((kw0, s0) :: rest)).1.all fun r => r.2) with
      | true =>
        have hpost := buyAfterAcquisition_success env
          (buyItemsLoop env 0 ((kw0, s0) :: rest)).1 hsucc
        refine ⟨.goto :: .captcha :: .monitor kw0 ::
          (buyItemsLoop env 0 ((kw0, s0) :: rest)).2, ?_, ?_⟩
        · simp [buyRun, hm, hpost]
        · simp only [checkoutOpsCount]
          rw [List.countP_eq_zero]
          intro a ha
          simp only [List.mem_cons] at ha
          rcases ha with rfl | rfl | rfl | ha
          · simp [isCheckoutOp]
          · simp [isCheckoutOp]
          · simp [isCheckoutOp]
          · simp [buyItemsLoop_noCheckout env _ 0 a ha]
      | false =>
        exfalso
        have hpost := buyAfterAcquisition_failure env
          (buyItemsLoop env 0 ((kw0, s0) :: rest)).1 hsucc
        simp [buyRun, hm, hpost] at h

/-- C7 amended witness at a concrete run whose click_checkout
fails. -/
theorem c7_amended_witness :
    ∃ pre, (buyRun c7Env [("Hat", "One Size")]).2 = pre ++ buyCheckoutEvs c7Env ∧
      checkoutOpsCount pre = 0 :=
  c7_checkout_failures_amended c7Env [("Hat", "One Size")] (by decide)

/-- C10: the availability monitoring of buy is keyed solely to the
first item: a nonempty run calls wait_for_drop exactly once, with
the first item keywords, an empty run never calls it; and the
monitor only ever returns at a time where the (first item) marker
probe is visible, so acquisition of every item starts as soon as
the first item is LIVE. -/
theorem c10_monitor_first_item_only (env : BuyEnv) (items : List (String × String)) :
    monitorKeywords (buyRun env items).2 =
      (match items with | [] => [] | (kw, _) :: _ => [kw]) ∧
    ((waitForDrop env.monitorEnv env.monitorFuel 0).1.all env.monitorEnv.visibleAt = true) := by
  refine ⟨?_, waitForDrop_live env.monitorEnv env.monitorFuel 0⟩
  match items with
  | [] =>
    cases hall : (([] : List (String × Bool)).all fun r => r.2) with
    | true =>
      have hpost := buyAfterAcquisition_success env [] hall
      simp [buyRun, hpost, monitorKeywords, buyCheckoutEvs]
    | false => simp at hall
  | (kw0, s0) :: rest =>
    cases hm : (waitForDrop env.monitorEnv env.monitorFuel 0).1 with
    | none => simp [buyRun, hm, monitorKeywords]
    | some tm =>
      have h1 := buyItemsLoop_noMonitor env ((kw0, s0) :: rest) 0
      have h2 := buyAfterAcquisition_noMonitor env
        (buyItemsLoop env 0 ((kw0, s0) :: rest)).1
      simp only [monitorKeywords] at h1 h2
      simp [buyRun, hm, monitorKeywords, List.filterMap_cons, List.filterMap_append,
        h1, h2]

/-- One-step equation: a failing initial load makes the whole
acquisition FAILED through the outer handler. -/
theorem addItemToCart_loadfail_eq (env : AtcEnv) (kw size : String)
    (hl : env.loadOutcome ≠ .ok) :
    addItemToCart env kw size = some (.failed (.exc .initialLoad)) := by
  cases hlv : env.loadOutcome with
  | ok => exact absurd hlv hl
  | timeout => simp [addItemToCart, hlv]
  | err => simp [addItemToCart, hlv]

/-- One-step equation: a locate loop ending without the item yields
FAILED with the not-found reason. -/
theorem addItemToCart_notFound_eq (env : AtcEnv) (kw size : String)
    (hl : env.loadOutcome = .ok) (hloc : atcLocate env 62 0 = some .notFoundRes) :
    addItemToCart env kw size = some (.failed .notFound) := by
  simp [addItemToCart, hl, hloc]

/-- One-step equation: an exception escaping the locate loop yields
FAILED through the outer handler. -/
theorem addItemToCart_exc_eq (env : AtcEnv) (kw size : String) (e : ExcSource)
    (hl : env.loadOutcome = .ok) (hloc : atcLocate env 62 0 = some (.excRes e)) :
    addItemToCart env kw size = some (.failed (.exc e)) := by
  simp [addItemToCart, hl, hloc]

/-- One-step equation: once the item is found and the size step does
not fail, the result is whatever the add-to-cart click stage
decides. -/
theorem addItemToCart_found_eq (env : AtcEnv) (kw size : String) (t : Nat)
    (hl : env.loadOutcome = .ok) (hloc : atcLocate env 62 0 = some (.foundRes t))
    (hs : sizeSelectStage env size = none) :
    addItemToCart env kw size = some (atcClickStage env) := by
  simp [addItemToCart, hl, hloc, hs]

/-- One-step equation: a failing size step makes the item FAILED
with the failure it produced. -/
theorem addItemToCart_sizefail_eq (env : AtcEnv) (kw size : String) (t : Nat)
    (f : AtcFail) (hl : env.loadOutcome = .ok)
    (hloc : atcLocate env 62 0 = some (.foundRes t))
    (hs : sizeSelectStage env size = some f) :
    addItemToCart env kw size = some (.failed f) := by
  simp [addItemToCart, hl, hloc, hs]

/-- C2: while the page is classified QUEUED the Availability Monitor
never reloads.  First conjunct: in the whole wait_for_drop trace
every reload happens while the most recent queue classification was
negative or had its 300 s stuck-timeout exceeded (or before any
classification).  Second conjunct: the gentle-wait sub-loop emits
only queue re-checks and sleeps of 5 to 10 seconds, never a
reload. -/
theorem c2_no_reload_while_queued (env : MonitorEnv) (fuel t : Nat)
    (q : Nat → Bool) (j : Nat → Nat) (qs t0 gfuel : Nat) :
    reloadsOk none (waitForDrop env fuel t).2 = true ∧
    ((gentleWait q j qs t0 gfuel).2.all isGentleEv) = true :=
  ⟨waitForDrop_reloadsOk env fuel t none rfl, gentleWait_shape q j qs gfuel t0⟩

/-- C3: add_item_to_cart only returns SUCCESS when both a network
acknowledgment matching is_atc_response arrived inside the
expect_response window and the post-condition UI evidence appeared;
missing either one forces a FAILED result, whatever the page
otherwise displays. -/
theorem c3_success_requires_ack_and_ui (env : AtcEnv) (kw size : String)
    (h : addItemToCart env kw size = some .success) :
    env.responses.any is_atc_response = true ∧ env.uiEvidence = true := by
  cases hl : env.loadOutcome with
  | timeout =>
    rw [addItemToCart_loadfail_eq env kw size (by simp [hl])] at h
    simp at h
  | err =>
    rw [addItemToCart_loadfail_eq env kw size (by simp [hl])] at h
    simp at h
  | ok =>
    obtain ⟨r, hr⟩ := Option.isSome_iff_exists.mp
      (atcLocate_isSome env 61 0 (by omega))
    cases r with
    | notFoundRes =>
      rw [addItemToCart_notFound_eq env kw size hl hr] at h
      simp at h
    | excRes e =>
      rw [addItemToCart_exc_eq env kw size e hl hr] at h
      simp at h
    | foundRes t =>
      cases hs : sizeSelectStage env size with
      | some f =>
        rw [addItemToCart_sizefail_eq env kw size t f hl hr hs] at h
        simp at h
      | none =>
        rw [addItemToCart_found_eq env kw size t hl hr hs] at h
        simp only [Option.some_inj] at h
        by_cases hb : env.atcBtnVisible
        · by_cases ha : env.responses.any is_atc_response
          · by_cases hu : env.uiEvidence
            · exact ⟨ha, hu⟩
            · rw [atcClickStage, if_pos hb, if_pos ha, if_neg hu] at h
              exact absurd h (by simp)
          · rw [atcClickStage, if_pos hb, if_neg ha] at h
            exact absurd h (by simp)
        · rw [atcClickStage, if_neg hb] at h
          exact absurd h (by simp)

/-- Fully successful acquisition environment used to witness C3. -/
def c3Env : AtcEnv :=
  ⟨.ok, fun _ => false, fun _ => .found, fun _ => .ok, fun _ => 0, fun _ => 0,
   true, false, ["Large"], true, [⟨"POST", "/api/cart/add.js", 200⟩], true⟩

/-- C3 witness: a concrete successful acquisition indeed has both a
matching acknowledgment and the UI evidence. -/
theorem c3_witness :
    c3Env.responses.any is_atc_response = true ∧ c3Env.uiEvidence = true :=
  c3_success_requires_ack_and_ui c3Env "Box Logo" "Large" (by decide)

/-- Environment with a visible size dropdown offering only Small
and Medium while Large is requested: select_option(label) times
out with PWTimeout, the first handler skips size selection, and
the run continues with the acknowledgment and UI evidence both
present. -/
def c8EnvAbsentLabel : AtcEnv :=
  ⟨.ok, fun _ => false, fun _ => .found, fun _ => .ok, fun _ => 0, fun _ => 0,
   true, false, ["Small", "Medium"], true, [⟨"POST", "/cart/add", 200⟩], true⟩

/-- The same page but the size-selection call raises a non-timeout
exception, reaching the enumerate-and-return-False handler. -/
def c8EnvRaise : AtcEnv :=
  ⟨.ok, fun _ => false, fun _ => .found, fun _ => .ok, fun _ => 0, fun _ => 0,
   true, true, ["Small", "Medium"], true, [⟨"POST", "/cart/add", 200⟩], true⟩

/-- C8: evaluation of the code at the claim's scenario.  With the
size dropdown visible and the requested size absent among the
offered options, select_option(label) raises PWTimeout, the first
handler (lines 180-181) logs and skips, and the acquisition
SUCCEEDS — the item goes into the cart without its size — instead
of ending FAILED with the offered-options reason the claim (and the
message of the generic handler at lines 182-189, which shows the
intended routing) describe.  The enumerate-and-fail branch fires
only when the size-selection call raises a non-timeout error. -/
theorem c8_size_skip_bug :
    addItemToCart c8EnvAbsentLabel "Hat" "Large" = some .success ∧
    addItemToCart c8EnvRaise "Hat" "Large" =
      some (.failed (.sizeSelectError ["Small", "Medium"])) := by
  constructor <;> decide

/-- C9: acquisition of an item always terminates in one of the two
boolean outcomes — the fuel 62 granted to its deadline loop is never
exhausted and the outer handler makes the embedding total — and in
particular an item whose marker never becomes visible under working
navigation ends FAILED with the not-found reason, while SUCCESS is
only possible when the marker really was found at a non-queued time
before the 300 s deadline. -/
theorem c9_acquisition_total (env : AtcEnv) (kw size : String) :
    (∃ o, addItemToCart env kw size = some o) ∧
    ((∀ u, env.locateOutcome u ≠ .found) → (∀ u, env.reloadOutcome u = .ok) →
      env.loadOutcome = .ok → addItemToCart env kw size = some (.failed .notFound)) ∧
    (addItemToCart env kw size = some .success →
      ∃ u, u < 300 ∧ env.queueAt u = false ∧ env.locateOutcome u = .found) := by
  refine ⟨Option.isSome_iff_exists.mp (addItemToCart_total env kw size), ?_, ?_⟩
  · intro hloc hrel hl
    obtain ⟨r, hr⟩ := Option.isSome_iff_exists.mp
      (atcLocate_isSome env 61 0 (by omega))
    have hnf := atcLocate_notFound env hloc hrel 62 0 r hr
    subst hnf
    exact addItemToCart_notFound_eq env kw size hl hr
  · intro h
    cases hl : env.loadOutcome with
    | timeout =>
      rw [addItemToCart_loadfail_eq env kw size (by simp [hl])] at h
      simp at h
    | err =>
      rw [addItemToCart_loadfail_eq env kw size (by simp [hl])] at h
      simp at h
    | ok =>
      obtain ⟨r, hr⟩ := Option.isSome_iff_exists.mp
        (atcLocate_isSome env 61 0 (by omega))
      cases r with
      | notFoundRes =>
        rw [addItemToCart_notFound_eq env kw size hl hr] at h
        simp at h
      | excRes e =>
        rw [addItemToCart_exc_eq env kw size e hl hr] at h
        simp at h
      | foundRes u =>
        obtain ⟨h1, h2, h3⟩ := atcLocate_found_char env 62 0 u hr
        exact ⟨u, h1, h2, h3⟩

/-- Environment whose item marker never appears. -/
def c9EnvA : AtcEnv :=
  ⟨.ok, fun _ => false, fun _ => .absent, fun _ => .ok, fun _ => 0, fun _ => 0,
   true, false, [], true, [], true⟩

/-- Environment with an immediately found item and both
confirmations. -/
def c9EnvB : AtcEnv :=
  ⟨.ok, fun _ => false, fun _ => .found, fun _ => .ok, fun _ => 0, fun _ => 0,
   true, false, ["Large"], true, [⟨"PUT", "/api/cart", 201⟩], true⟩

/-- C9 witness: the never-found environment ends FAILED not-found,
and a successful run exhibits the found time. -/
theorem c9_witness :
    addItemToCart c9EnvA "Hat" "Large" = some (.failed .notFound) ∧
    (∃ u, u < 300 ∧ c9EnvB.queueAt u = false ∧ c9EnvB.locateOutcome u = .found) :=
  ⟨(c9_acquisition_total c9EnvA "Hat" "Large").2.1
      (fun u => by simp [c9EnvA]) (fun u => rfl) rfl,
   (c9_acquisition_total c9EnvB "Hat" "Large").2.2 (by decide)⟩

/-- Environment of the successful one-item run used to witness C1. -/
def c1AtcEnv : AtcEnv :=
  ⟨.ok, fun _ => false, fun _ => .found, fun _ => .ok, fun _ => 0, fun _ => 0,
   true, false, [], true, [⟨"POST", "/cart/add", 200⟩], true⟩

/-- Monitoring environment for the C1 witness run. -/
def c1MEnv : MonitorEnv :=
  ⟨fun _ => .ok, fun _ => false, fun _ => true, fun _ => 0, fun _ => 0⟩

/-- Full run environment for the C1 witness. -/
def c1Env : BuyEnv := ⟨c1MEnv, 1, fun _ => c1AtcEnv, true, true, true⟩

/-- C1 witness at a concrete non-stuck one-item run. -/
theorem c1_witness :
    (checkoutInvoked (buyRun c1Env [("Hat", "One Size")]).2 = true ↔
      allItemsSucceed c1Env [("Hat", "One Size")] = true) ∧
    (allItemsSucceed c1Env [("Hat", "One Size")] = false →
      checkoutOpsCount (buyRun c1Env [("Hat", "One Size")]).2 = 0) :=
  c1_checkout_iff_all_success c1Env [("Hat", "One Size")] (by decide)

/-- The captcha re-poll loop performs at most its range of polls. -/
theorem captchaPolls_le (env : CaptchaEnv) :
    ∀ n i, countPolls (captchaPolls env n i) ≤ n := by
  intro n
  induction n with
  | zero => intro i; simp [captchaPolls, countPolls]
  | succ k ih =>
    intro i
    by_cases hd : detect_captcha (env.probe i)
    · have h2 := ih (i+1)
      simp only [countPolls] at h2 ⊢
      simp only [captchaPolls, hd, if_true, List.countP_cons]
      simp
      omega
    · simp [captchaPolls, hd, countPolls]

/-- When every probe in range still detects the overlay, the loop
performs all of its polls. -/
theorem captchaPolls_all_present (env : CaptchaEnv) :
    ∀ n i, (∀ m, m < n → detect_captcha (env.probe (i+m)) = true) →
      countPolls (captchaPolls env n i) = n := by
  intro n
  induction n with
  | zero => intro i _; simp [captchaPolls, countPolls]
  | succ k ih =>
    intro i h
    have hd : detect_captcha (env.probe i) = true := by
      have h0 := h 0 (by omega)
      simpa using h0
    have hrest := ih (i+1) (fun m hm => by
      have h2 := h (m+1) (by omega)
      have e : i + (m+1) = (i+1) + m := by omega
      rwa [e] at h2)
    simp only [countPolls] at hrest ⊢
    simp only [captchaPolls, hd, if_true, List.countP_cons]
    simp [hrest]

/-- When the overlay first disappears at poll k inside the range,
the loop stops right there: exactly k+1 polls, the last observing
the overlay gone. -/
theorem captchaPolls_first_gone (env : CaptchaEnv) :
    ∀ n i k, k < n → detect_captcha (env.probe (i+k)) = false →
      (∀ m, m < k → detect_captcha (env.probe (i+m)) = true) →
      countPolls (captchaPolls env n i) = k + 1 ∧
      CEv.poll (i+k) false ∈ captchaPolls env n i := by
  intro n
  induction n with
  | zero => intro i k hk _ _; omega
  | succ nn ih =>
    intro i k hk hgone hbefore
    cases k with
    | zero =>
      have hd : detect_captcha (env.probe i) = false := by simpa using hgone
      constructor
      · simp [captchaPolls, hd, countPolls]
      · simp [captchaPolls, hd]
    | succ kk =>
      have hd : detect_captcha (env.probe i) = true := by
        have h0 := hbefore 0 (by omega)
        simpa using h0
      have e1 : i + (kk+1) = (i+1) + kk := by omega
      have hih := ih (i+1) kk (by omega) (by rwa [e1] at hgone)
        (fun m hm => by
          have h2 := hbefore (m+1) (by omega)
          have e2 : i + (m+1) = (i+1) + m := by omega
          rwa [e2] at h2)
      constructor
      · simp only [countPolls] at hih ⊢
        simp only [captchaPolls, hd, if_true, List.countP_cons]
        simp [hih.1]
      · rw [e1]
        simp only [captchaPolls, hd, if_true, List.mem_cons]
        exact Or.inr (Or.inr hih.2)

/-- Every sleep the captcha re-poll loop performs lasts 3 seconds. -/
theorem captchaPolls_sleep3 (env : CaptchaEnv) :
    ∀ n i, ((captchaPolls env n i).all
      (fun e => match e with | .sleepC _ d => d == 3 | _ => true)) = true := by
  intro n
  induction n with
  | zero => intro i; rfl
  | succ k ih =>
    intro i
    by_cases hd : detect_captcha (env.probe i)
    · simp [captchaPolls, hd, ih (i+1)]
    · simp [captchaPolls, hd]

/-- The prompt and the operator acknowledgment are not polls. -/
theorem countPolls_wait (env : CaptchaEnv) :
    countPolls (wait_for_captcha env) = countPolls (captchaPolls env 10 0) := by
  simp [wait_for_captcha, countPolls, List.countP_cons]

/-- Environment whose challenge overlay never goes away. -/
def c4EnvAll : CaptchaEnv := ⟨.ok true, fun _ => .ok true⟩

/-- C4 counterexample: with an overlay that never disappears,
wait_for_captcha performs its 10 re-polls, every one still
detecting the overlay, and returns nonetheless — the overlay is
still detected after the last poll — refuting that the gate returns
only once the overlay is gone. -/
theorem c4_counterexample :
    countPolls (wait_for_captcha c4EnvAll) = 10 ∧
    ((wait_for_captcha c4EnvAll).all
      (fun e => match e with | .poll _ r => r | _ => true)) = true ∧
    detect_captcha (c4EnvAll.probe 10) = true := by
  refine ⟨?_, ?_, rfl⟩ <;> decide

/-- C4 amended: after the operator prompt and blocking
acknowledgment, the gate re-polls detection every 3 seconds at most
10 times; it stops at the first poll that shows the overlay gone,
and if the overlay persists through all 10 polls it returns anyway
with the overlay still present. -/
theorem c4_gate_repoll_amended (env : CaptchaEnv) :
    ((wait_for_captcha env).take 2 = [.prompt, .operatorAck]) ∧
    countPolls (wait_for_captcha env) ≤ 10 ∧
    ((wait_for_captcha env).all
      (fun e => match e with | .sleepC _ d => d == 3 | _ => true)) = true ∧
    ((∀ i, i < 10 → detect_captcha (env.probe i) = true) →
      countPolls (wait_for_captcha env) = 10) ∧
    (∀ k, k < 10 → detect_captcha (env.probe k) = false →
      (∀ m, m < k → detect_captcha (env.probe m) = true) →
      countPolls (wait_for_captcha env) = k + 1 ∧
      CEv.poll k false ∈ wait_for_captcha env) := by
  refine ⟨rfl, ?_, ?_, ?_, ?_⟩
  · rw [countPolls_wait]
    exact captchaPolls_le env 10 0
  · simp [wait_for_captcha, captchaPolls_sleep3 env 10 0]
  · intro hall
    rw [countPolls_wait]
    exact captchaPolls_all_present env 10 0 (fun m hm => by simpa using hall m hm)
  · intro k hk hgone hbefore
    have h := captchaPolls_first_gone env 10 0 k hk (by simpa using hgone)
      (fun m hm => by simpa using hbefore m hm)
    refine ⟨by rw [countPolls_wait]; exact h.1, ?_⟩
    simp only [wait_for_captcha, List.mem_cons]
    exact Or.inr (Or.inr (by simpa using h.2))

/-- Environment whose challenge overlay is gone at the first
re-poll. -/
def c4EnvGone : CaptchaEnv := ⟨.ok true, fun _ => .ok false⟩

/-- C4 amended witness: full 10 polls at a persistent overlay, and a
single poll at an overlay that is gone at once. -/
theorem c4_amended_witness :
    countPolls (wait_for_captcha c4EnvAll) = 10 ∧
    (countPolls (wait_for_captcha c4EnvGone) = 0 + 1 ∧
      CEv.poll 0 false ∈ wait_for_captcha c4EnvGone) :=
  ⟨(c4_gate_repoll_amended c4EnvAll).2.2.2.1 (fun i _ => rfl),
   (c4_gate_repoll_amended c4EnvGone).2.2.2.2 0 (by omega) rfl
     (fun m hm => absurd hm (by omega))⟩

/-- C5: when detect_captcha reports no overlay — including when the
underlying probe raised, since detect_captcha catches both exception
kinds and returns False — captcha_check performs no side effect at
all: no prompt, no blocking read, no poll, no sleep, and it returns
normally. -/
theorem c5_no_captcha_noop (env : CaptchaEnv)
    (h : detect_captcha env.initialProbe = false) :
    captcha_check env = [] ∧
    detect_captcha .timeout = false ∧ detect_captcha .err = false :=
  ⟨by simp [captcha_check, h], rfl, rfl⟩

/-- C5 witness: a page without the overlay leaves the gate a
no-op. -/
theorem c5_witness :
    captcha_check ⟨.ok false, fun _ => .ok true⟩ = [] ∧
    detect_captcha .timeout = false ∧ detect_captcha .err = false :=
  c5_no_captcha_noop ⟨.ok false, fun _ => .ok true⟩ rfl

/-- Acquisition environment where the only reload of the run raises
a PWTimeout. -/
def c6EnvFail : AtcEnv :=
  ⟨.ok, fun _ => false, fun u => if u == 0 then .absent else .found,
   fun u => if u == 5 then .timeout else .ok, fun _ => 0, fun _ => 0,
   true, false, ["Large"], true, [⟨"POST", "/cart/add", 200⟩], true⟩

/-- The same run with a working reload: the item is found on the
next pass and acquisition succeeds. -/
def c6EnvRecover : AtcEnv :=
  ⟨.ok, fun _ => false, fun u => if u == 0 then .absent else .found,
   fun _ => .ok, fun _ => 0, fun _ => 0,
   true, false, ["Large"], true, [⟨"POST", "/cart/add", 200⟩], true⟩

/-- C6 counterexample: a single transient reload timeout during
acquisition reaches the outer handler of add_item_to_cart and
surfaces as this item FAILED, although the identical run without
the transient error succeeds — so a transient error during
acquisition is not always retried and can by itself produce a
FAILED result. -/
theorem c6_counterexample :
    addItemToCart c6EnvFail "Hat" "Large" =
      some (.failed (.exc (.reloadAfterMiss 5))) ∧
    addItemToCart c6EnvRecover "Hat" "Large" = some .success := by
  constructor <;> decide

/-- C6 amended: transient reload errors during monitoring are
retried locally with their 5 s and 10 s backoffs and the monitor
only ever returns LIVE; inside acquisition a raised locate probe is
swallowed and the loop simply continues at the next pass; but a
transient failure of the acquisition reload itself is caught by the
per-item handler and surfaces as that item FAILED (never as a
raised error). -/
theorem c6_transient_error_amended (menv : MonitorEnv) (fuel t : Nat)
    (aenv : AtcEnv) (kw size : String) (afuel u : Nat)
    (h1 : aenv.loadOutcome = .ok)
    (h2 : aenv.queueAt 0 = false)
    (h3 : aenv.locateOutcome 0 ≠ .found)
    (h4 : aenv.reloadOutcome (5 + aenv.locJitter 0 % 11) ≠ .ok)
    (h5 : u < 300) (h6 : aenv.queueAt u = false)
    (h7 : aenv.locateOutcome u = .raised)
    (h8 : aenv.reloadOutcome (u + (5 + aenv.locJitter u % 11)) = .ok) :
    ((waitForDrop menv fuel t).1.all menv.visibleAt = true) ∧
    retryShape (waitForDrop menv fuel t).2 = true ∧
    addItemToCart aenv kw size =
      some (.failed (.exc (.reloadAfterMiss (5 + aenv.locJitter 0 % 11)))) ∧
    atcLocate aenv (afuel+1) u =
      atcLocate aenv afuel (u + (5 + aenv.locJitter u % 11)) := by
  refine ⟨waitForDrop_live menv fuel t, waitForDrop_retryShape menv fuel t, ?_, ?_⟩
  · have hr0 : aenv.reloadOutcome (0 + (5 + aenv.locJitter 0 % 11)) ≠ .ok := by
      simpa using h4
    have hloc := atcLocate_miss_fail aenv 61 0 (by omega) h2 h3 hr0
    rw [Nat.zero_add] at hloc
    exact addItemToCart_exc_eq aenv kw size _ h1 hloc
  · exact atcLocate_miss_ok aenv afuel u h5 h6 (by simp [h7]) h8

/-- Monitoring environment for the C6 amended witness. -/
def c6WMEnv : MonitorEnv :=
  ⟨fun _ => .ok, fun _ => false, fun _ => true, fun _ => 0, fun _ => 0⟩

/-- Acquisition environment for the C6 amended witness: the locate
probe always raises, the reload at time 5 raises, later reloads
work. -/
def c6WEnv : AtcEnv :=
  ⟨.ok, fun _ => false, fun _ => .raised,
   fun v => if v == 5 then .timeout else .ok, fun _ => 0, fun _ => 0,
   true, false, [], true, [], true⟩

/-- C6 amended witness at concrete environments. -/
theorem c6_amended_witness :
    ((waitForDrop c6WMEnv 1 0).1.all c6WMEnv.visibleAt = true) ∧
    retryShape (waitForDrop c6WMEnv 1 0).2 = true ∧
    addItemToCart c6WEnv "Hat" "Large" =
      some (.failed (.exc (.reloadAfterMiss (5 + c6WEnv.locJitter 0 % 11)))) ∧
    atcLocate c6WEnv (3+1) 100 =
      atcLocate c6WEnv 3 (100 + (5 + c6WEnv.locJitter 100 % 11)) :=
  c6_transient_error_amended c6WMEnv 1 0 c6WEnv "Hat" "Large" 3 100 rfl rfl
    (by decide) (by decide) (by decide) rfl rfl (by decide)

end SupremeBot
